import Mathlib

/-
Verification development for the Voyager document/graph model.

Shallow embedding of:
- the `Model` component (source/client/explorer/components/Model.ts):
  derivative management, quality-tiered derivative selection, progressive
  loading, inflation from schema data, and disposal;
- the `CVDocument` component (CVDocument.ts): document open with schema
  validation, convenience model/geometry append, and serialization.

Stateful methods are embedded as explicit state-passing functions; a thrown
JS error is modelled as an `Option String` error slot (or `Except`) returned
beside the post-state, so that field writes performed before a throw remain
visible in the post-state, exactly as they do on a mutated JS object.
External side effects (child attachment/removal on the renderer scene graph,
resource disposal, event emission) are recorded as ordered event lists.
-/

set_option autoImplicit false

/-- EDerivativeUsage from models/Derivative: the consumption context of a
derivative. Only `Web` is exercised by the embedded code. -/
inductive EDerivativeUsage where
  | Web
  | Print
  | Editorial
deriving DecidableEq

/-- EDerivativeQuality from models/Derivative: the discrete quality tier. -/
inductive EDerivativeQuality where
  | Thumb
  | Low
  | Medium
  | High
  | Highest
deriving DecidableEq

/-- The `_qualityLevels` array of Model.ts: all supported quality levels in
ascending order. -/
def qualityLevels : List EDerivativeQuality :=
  [.Thumb, .Low, .Medium, .High, .Highest]

/-- An axis-aligned bounding box (THREE.Box3), kept as raw coordinate data;
the geometry of the box is never computed on by the embedded code. -/
structure Box3 where
  min : List Int
  max : List Int
deriving DecidableEq

/-- A derivative descriptor (models/Derivative). `id` models JS object
identity (distinct objects get distinct ids); `model` is the loaded visual
representation (an opaque renderer object id), null until loaded;
`boundingBox` is computed by the loader. -/
structure Derivative where
  id : Nat
  usage : EDerivativeUsage
  quality : EDerivativeQuality
  assets : List String
  model : Option Nat := none
  boundingBox : Option Box3 := none
deriving DecidableEq

/-- Observable side effects of Model methods on the renderer scene graph and
the event system, in order of occurrence. -/
inductive MEvent where
  | removedBoxFrame
  | disposedBoxFrameGeometry
  | addedBoxFrame
  | removedActiveModel (derivId : Nat)
  | disposedDerivative (derivId : Nat)
  | addedModel (derivId : Nat)
  | emittedUpdate
  | updatedPropsFromMatrix
deriving DecidableEq

/-- State of a Model component (Model.ts fields relevant to derivative
management and loading). `boundingBox` is `Option` because JS allows the
field to be null, although the field initializer assigns a fresh Box3;
`boxFrame` and `loadingManager` record whether those references are set
(truthy). `matrixData` holds the object3D matrix contents when set from
schema data. -/
structure Model where
  units : String := "cm"
  boundingBox : Option Box3 := some { min := [0, 0, 0], max := [0, 0, 0] }
  boxFrame : Bool := false
  derivatives : List Derivative := []
  activeDerivative : Option Derivative := none
  loadingManager : Bool := false
  assetPath : String := ""
  matrixData : Option (List Int) := none
deriving DecidableEq

/-- JS `Array.prototype.indexOf`: index of the first occurrence, `-1` when
absent. -/
def jsIndexOf {α : Type} [DecidableEq α] : List α → α → Int
  | [], _ => -1
  | x :: xs, a =>
    if x = a then 0
    else
      let r := jsIndexOf xs a
      if r < 0 then -1 else r + 1

/-- JS `Array.prototype.splice(start, 1)`: removes one element at `start`,
counting from the end when `start` is negative and clamping into range. -/
def jsSpliceOne {α : Type} (l : List α) (start : Int) : List α :=
  let len : Int := l.length
  let actual : Nat := (if start < 0 then max (len + start) 0 else min start len).toNat
  l.take actual ++ l.drop (actual + 1)

/-- Model.addDerivative: push onto the derivative list. -/
def Model.addDerivative (m : Model) (derivative : Derivative) : Model :=
  { m with derivatives := m.derivatives ++ [derivative] }

/-- Model.removeDerivative: `splice(indexOf(derivative), 1)` — the index is
not guarded against `-1`. -/
def Model.removeDerivative (m : Model) (derivative : Derivative) : Model :=
  let index := jsIndexOf m.derivatives derivative
  { m with derivatives := jsSpliceOne m.derivatives index }

/-- Model.findDerivative: first derivative in insertion order whose usage and
quality both match (the source defaults `usage` to `Web` when omitted). -/
def Model.findDerivative (m : Model) (quality : EDerivativeQuality)
    (usage : EDerivativeUsage) : Option Derivative :=
  m.derivatives.find? (fun d => d.usage = usage && d.quality = quality)

/-- Model.selectDerivative: exact (quality, usage) match first; otherwise the
first match scanning strictly higher levels in ascending order
(`i = qualityIndex + 1 .. length - 1`); otherwise the first match scanning
strictly lower levels in descending order (`i = qualityIndex - 1 .. 0`);
otherwise none. Throws when the requested quality is not in
`qualityLevels`. -/
def Model.selectDerivative (m : Model) (quality : EDerivativeQuality)
    (usage : EDerivativeUsage) : Except String (Option Derivative) :=
  let qualityIndex := jsIndexOf qualityLevels quality
  if qualityIndex < 0 then
    .error "derivative quality not supported"
  else
    match m.findDerivative quality usage with
    | some derivative => .ok (some derivative)
    | none =>
      match (qualityLevels.drop (qualityIndex.toNat + 1)).findSome?
          (fun lvl => m.findDerivative lvl usage) with
      | some derivative => .ok (some derivative)
      | none =>
        match ((qualityLevels.take qualityIndex.toNat).reverse).findSome?
            (fun lvl => m.findDerivative lvl usage) with
        | some derivative => .ok (some derivative)
        | none => .ok none

/-- Rank of a quality level in the ascending tier order. -/
def qualityRank : EDerivativeQuality → Nat
  | .Thumb => 0
  | .Low => 1
  | .Medium => 2
  | .High => 3
  | .Highest => 4

/-- Reference selection function following the specification text: the exact
(quality, usage) match if present; otherwise the first derivative found while
scanning strictly higher quality levels in ascending order; otherwise the
first found while scanning strictly lower levels in descending order;
otherwise none. Stated independently of the source, to be compared with
`Model.selectDerivative`. -/
def specSelectDerivative (m : Model) (quality : EDerivativeQuality)
    (usage : EDerivativeUsage) : Option Derivative :=
  match m.findDerivative quality usage with
  | some derivative => some derivative
  | none =>
    match (qualityLevels.filter (fun lvl => qualityRank quality < qualityRank lvl)).findSome?
        (fun lvl => m.findDerivative lvl usage) with
    | some derivative => some derivative
    | none =>
      ((qualityLevels.filter (fun lvl => qualityRank lvl < qualityRank quality)).reverse).findSome?
        (fun lvl => m.findDerivative lvl usage)

/-- Model.autoLoad: builds the load sequence (Thumb derivative if present,
then the result of selectDerivative), rejects when the sequence is empty,
otherwise chains `loadDerivative` over the sequence in order, each load
resolved before the next begins. The returned list is the ordered sequence
of loads issued by the promise chain. -/
def Model.autoLoad (m : Model) (quality : EDerivativeQuality) :
    Except String (List Derivative) :=
  let thumb := m.findDerivative .Thumb .Web
  match m.selectDerivative quality .Web with
  | .error e => .error e
  | .ok second =>
    let sequence := thumb.toList ++ second.toList
    if sequence.isEmpty then
      .error "no suitable web-derivatives available"
    else
      .ok sequence

/-- Result of one `loadDerivative` call: post-state, renderer/event effects in
order, and the error (if the call threw or the load rejected). -/
structure LoadStep where
  post : Model
  events : List MEvent
  err : Option String
deriving DecidableEq

/-- Model.loadDerivative: throws when no loading manager is configured.
`loadResult` stands for the outcome of the external
`derivative.load(loadingManager, assetPath)` collaborator: on success it
yields the derivative with its `model` (and `boundingBox`) populated. On a
fulfilled load with a model present: the box frame (if any) is removed and
its geometry disposed; the previously active derivative (if any) has its
model removed from the scene and is disposed; the bounding box is taken from
the derivative when the model has none; the derivative becomes active, its
model is attached, and an update event is emitted. The trailing debug logging
reads `derivative.boundingBox.min`, which throws (rejecting the promise,
after all state changes) when the derivative has no bounding box. -/
def Model.loadDerivative (m : Model) (loadResult : Except String Derivative) :
    LoadStep :=
  if !m.loadingManager then
    { post := m, events := [], err := some "cannot load derivative, loading manager not set" }
  else
    match loadResult with
    | .error e => { post := m, events := [], err := some e }
    | .ok derivative =>
      match derivative.model with
      | none => { post := m, events := [], err := none }
      | some _modelObj =>
        let step1 : Model × List MEvent :=
          if m.boxFrame then
            ({ m with boxFrame := false },
             [MEvent.removedBoxFrame, MEvent.disposedBoxFrameGeometry])
          else (m, [])
        let step2 : Model × List MEvent :=
          match step1.1.activeDerivative with
          | some active =>
            (step1.1, [MEvent.removedActiveModel active.id, MEvent.disposedDerivative active.id])
          | none => (step1.1, [])
        let m3 : Model :=
          if step2.1.boundingBox.isNone && derivative.boundingBox.isSome then
            { step2.1 with boundingBox := derivative.boundingBox }
          else step2.1
        let m4 : Model := { m3 with activeDerivative := some derivative }
        let lateErr : Option String :=
          if derivative.boundingBox.isNone then
            some "TypeError: boundingBox is null"
          else none
        { post := m4,
          events := step1.2 ++ step2.2 ++ [MEvent.addedModel derivative.id, MEvent.emittedUpdate],
          err := lateErr }

/-- Model.dispose: invokes dispose on every derivative in the derivative
list (recorded as disposal events, in list order) and clears the
active-derivative reference. -/
def Model.dispose (m : Model) : Model × List MEvent :=
  ({ m with activeDerivative := none },
   m.derivatives.map (fun d => MEvent.disposedDerivative d.id))

/-- A derivative record of the IModel schema shape. -/
structure IModelDerivative where
  usage : EDerivativeUsage
  quality : EDerivativeQuality
  assets : List String
deriving DecidableEq

/-- The IModel schema shape consumed by Model.fromData. -/
structure IModelData where
  units : String
  derivatives : List IModelDerivative
  transform : Option (List Int) := none
  boundingBox : Option Box3 := none
deriving DecidableEq

/-- Model.fromData: writes `units` from the data first, then throws when
derivatives already exist; otherwise adds one derivative per data record
(fresh objects, modelled with ids by position), copies the transform into the
object3D matrix when present (updating the pose properties from the matrix,
an external numeric decomposition recorded as an event), and when the data
has a bounding box, copies it, attaches a box-frame helper child, and emits
an update event. -/
def Model.fromData (m : Model) (data : IModelData) :
    Model × List MEvent × Option String :=
  let m1 := { m with units := data.units }
  if m1.derivatives.length > 0 then
    (m1, [], some "existing derivatives; failed to inflate from modelData")
  else
    let m2 := { m1 with
      derivatives := m1.derivatives ++ data.derivatives.enum.map
        (fun p => { id := p.1, usage := p.2.usage, quality := p.2.quality,
                    assets := p.2.assets : Derivative }) }
    let step3 : Model × List MEvent :=
      match data.transform with
      | some t => ({ m2 with matrixData := some t }, [MEvent.updatedPropsFromMatrix])
      | none => (m2, [])
    match data.boundingBox with
    | some bb =>
      ({ step3.1 with boundingBox := some bb, boxFrame := true },
       step3.2 ++ [MEvent.addedBoxFrame, MEvent.emittedUpdate], none)
    | none => (step3.1, step3.2, none)

/-- The asset metadata block of the document schema. -/
structure IAsset where
  type : String
  version : String
  generator : String
  copyright : String
deriving DecidableEq

/-- A scene record of the document schema: the indices of its root nodes. -/
structure IScene where
  nodes : List Nat
deriving DecidableEq

/-- The document schema shape relevant to CVDocument: asset metadata, the
active scene index, and the scene list. -/
structure IDocument where
  asset : IAsset
  scene : Nat
  scenes : List IScene
deriving DecidableEq

/-- CVDocument.mimeType. -/
def CVDocument.mimeType : String := "application/si-dpo-3d.document+json"

/-- CVDocument.version. -/
def CVDocument.docVersion : String := "1.0"

/-- A reference to a live node (NVNode or NVScene): its id, the id of the
graph it belongs to, and whether it is a scene node. -/
structure NVNodeRef where
  id : Nat
  graphId : Nat
  isScene : Bool
deriving DecidableEq

/-- The `mergeParent` argument of openDocument: absent, a boolean, or a
node/scene object. -/
inductive MergeParent where
  | undef
  | flag (b : Bool)
  | node (n : NVNodeRef)
deriving DecidableEq

/-- Observable effects of CVDocument methods on the inner graph. -/
inductive DEvent where
  | disposedNode (id : Nat)
  | createdNode (id : Nat)
  | reparented (childId parentId : Nat)
  | setAssetPath (p : String)
deriving DecidableEq

/-- State of a CVDocument: the id of its inner graph, the content nodes of
that graph (`liveNodes`, excluding the root scene node created by the
constructor), the direct children of the root scene, a counter for fresh
node ids, the asset path output, and the model assets registered by the
append helpers (node id, asset path, optional quality). -/
structure DocState where
  graphId : Nat
  rootChildren : List Nat := []
  liveNodes : List Nat := []
  nextNodeId : Nat := 1
  assetPath : String := ""
  modelAssets : List (Nat × String × Option EDerivativeQuality) := []
deriving DecidableEq

/-- The root scene node of a document graph (created by the constructor);
modelled with the reserved id 0. -/
def DocState.rootRef (st : DocState) : NVNodeRef :=
  { id := 0, graphId := st.graphId, isScene := true }

/-- Modelled from the spec: the framework graph emptiness test
(`CRenderGraph.isEmpty`, an external collaborator) — the graph is empty when
it holds no content nodes. -/
def DocState.isEmpty (st : DocState) : Bool :=
  st.liveNodes.isEmpty

/-- CVDocument.clearNodeTree: disposes every direct child of the root scene
(each `child.node.dispose()` recursively tears down its subtree, an external
framework operation recorded here as one disposal event per direct child). -/
def CVDocument.clearNodeTree (st : DocState) : DocState × List DEvent :=
  ({ st with rootChildren := [],
             liveNodes := st.liveNodes.filter (fun n => n ∉ st.rootChildren) },
   st.rootChildren.map DEvent.disposedNode)

/-- Modelled from the spec: `NVScene.fromDocument` (not part of the embedded
sources) populates the scene from the document — new root-level nodes are
created per the active scene's node index list and attached under the root. -/
def sceneFromDocument (st : DocState) (d : IDocument) : DocState × List DEvent :=
  let indices := ((d.scenes.get? d.scene).map IScene.nodes).getD []
  indices.foldl
    (fun acc _rootIndex =>
      let nid := acc.1.nextNodeId
      ({ acc.1 with nextNodeId := nid + 1,
                    liveNodes := acc.1.liveNodes ++ [nid],
                    rootChildren := acc.1.rootChildren ++ [nid] },
       acc.2 ++ [DEvent.createdNode nid, DEvent.reparented nid 0]))
    (st, [])

/-- CVDocument.openDocument: validates the document data first and throws
when validation fails (`validate` stands for the external
`DocumentValidator`). When `mergeParent` is falsy, clears the node tree.
Resolves the parent (the root scene unless an object was given); throws when
the parent belongs to a different graph. A scene parent is populated via the
scene's own document import; otherwise one new root-level node is created and
reparented under the given node per index in the active scene's node list
(each `NVNode.fromDocument` populating it, modelled from the spec). Finally,
when an asset path is given, the asset path output is set. -/
def CVDocument.openDocument (validate : IDocument → Bool) (st : DocState)
    (documentData : IDocument) (assetPath : Option String)
    (mergeParent : MergeParent) : DocState × List DEvent × Option String :=
  if !(validate documentData) then
    (st, [], some "document schema validation failed")
  else
    let falsy : Bool := match mergeParent with
      | .undef => true
      | .flag b => !b
      | .node _ => false
    let cleared : DocState × List DEvent :=
      if falsy then CVDocument.clearNodeTree st else (st, [])
    let parent : NVNodeRef := match mergeParent with
      | .node n => n
      | _ => cleared.1.rootRef
    if parent.graphId ≠ cleared.1.graphId then
      (cleared.1, cleared.2, some "invalid parent node")
    else
      let populated : DocState × List DEvent :=
        if parent.isScene then
          sceneFromDocument cleared.1 documentData
        else
          let indices := ((documentData.scenes.get? documentData.scene).map IScene.nodes).getD []
          indices.foldl
            (fun acc _rootIndex =>
              let nid := acc.1.nextNodeId
              ({ acc.1 with nextNodeId := nid + 1,
                            liveNodes := acc.1.liveNodes ++ [nid] },
               acc.2 ++ [DEvent.createdNode nid, DEvent.reparented nid parent.id]))
            (cleared.1, [])
      match assetPath with
      | some p =>
        ({ populated.1 with assetPath := p },
         cleared.2 ++ populated.2 ++ [DEvent.setAssetPath p], none)
      | none => (populated.1, cleared.2 ++ populated.2, none)

/-- Shared tail of appendModel/appendGeometry: creates a new node, attaches
it under the resolved parent, creates a model component on it and registers
one derivative asset at the requested quality. -/
def CVDocument.appendCore (st : DocState) (parentId : Nat) (path : String)
    (quality : Option EDerivativeQuality) : DocState × List DEvent × Option String :=
  let nid := st.nextNodeId
  ({ st with nextNodeId := nid + 1,
             liveNodes := st.liveNodes ++ [nid],
             rootChildren := if parentId = 0 then st.rootChildren ++ [nid] else st.rootChildren,
             modelAssets := st.modelAssets ++ [(nid, path, quality)] },
   [DEvent.createdNode nid, DEvent.reparented nid parentId], none)

/-- CVDocument.appendModel: throws when the given parent belongs to a
different graph, then throws when the graph is empty; otherwise creates a
model node under the parent (default: the root scene) and registers a model
derivative asset for the given path and quality. -/
def CVDocument.appendModel (st : DocState) (assetPath : String)
    (quality : Option EDerivativeQuality) (parent : Option NVNodeRef) :
    DocState × List DEvent × Option String :=
  match parent with
  | some p =>
    if p.graphId ≠ st.graphId then
      (st, [], some "invalid parent node")
    else if st.isEmpty then
      (st, [], some "empty document, cannot append model")
    else
      CVDocument.appendCore st p.id assetPath quality
  | none =>
    if st.isEmpty then
      (st, [], some "empty document, cannot append model")
    else
      CVDocument.appendCore st st.rootRef.id assetPath quality

/-- CVDocument.appendGeometry: same preconditions and node creation as
appendModel; registers a mesh asset (geometry path, optional maps) at the
requested quality. -/
def CVDocument.appendGeometry (st : DocState) (geoPath : String)
    (quality : Option EDerivativeQuality) (parent : Option NVNodeRef) :
    DocState × List DEvent × Option String :=
  match parent with
  | some p =>
    if p.graphId ≠ st.graphId then
      (st, [], some "invalid parent node")
    else if st.isEmpty then
      (st, [], some "empty document, cannot append geometry")
    else
      CVDocument.appendCore st p.id geoPath quality
  | none =>
    if st.isEmpty then
      (st, [], some "empty document, cannot append geometry")
    else
      CVDocument.appendCore st st.rootRef.id geoPath quality

/-- Modelled from the spec: `NVScene.toDocument` (not part of the embedded
sources) recursively serializes the scene into the document — it appends the
serialized scene to the document's scenes array (resolving back-references
through a component-to-path map) and returns the index of that scene; it
does not touch the asset metadata block. -/
def sceneToDocument (st : DocState) (document : IDocument) : Nat × IDocument :=
  (document.scenes.length,
   { document with scenes := document.scenes ++ [{ nodes := st.rootChildren }] })

/-- CVDocument.deflateDocument: throws when the graph is empty; otherwise
builds a fresh document with the fixed asset metadata block, serializes the
root scene into it and stores the returned scene index. -/
def CVDocument.deflateDocument (st : DocState) : Except String IDocument :=
  if st.isEmpty then
    .error "empty document, cannot serialize"
  else
    let document : IDocument :=
      { asset :=
          { type := CVDocument.mimeType,
            version := CVDocument.docVersion,
            generator := "Voyager",
            copyright := "(c) Smithsonian Institution. All rights reserved." },
        scene := 0,
        scenes := [] }
    let result := sceneToDocument st document
    .ok { result.2 with scene := result.1 }

/-- Fixture: a Low-quality web derivative. -/
def lowDeriv : Derivative :=
  { id := 1, usage := .Web, quality := .Low, assets := ["low.glb"] }

/-- Fixture: a High-quality web derivative. -/
def highDeriv : Derivative :=
  { id := 2, usage := .Web, quality := .High, assets := ["high.glb"] }

/-- Fixture: a model with derivatives only at Low and High quality. -/
def lowHighModel : Model :=
  { derivatives := [lowDeriv, highDeriv] }

/-- Fixture: a Thumb-quality web derivative. -/
def thumbDerivF : Derivative :=
  { id := 3, usage := .Web, quality := .Thumb, assets := ["thumb.glb"] }

/-- Fixture: a model holding both a Thumb and a High derivative. -/
def thumbHighModel : Model :=
  { derivatives := [thumbDerivF, highDeriv] }

/-- Fixture: a model with no derivatives at all. -/
def emptyModel : Model := {}

/-- Fixture: a bounding box with concrete coordinates. -/
def bbW : Box3 := { min := [-1, -1, -1], max := [1, 1, 1] }

/-- Fixture: a previously active Low derivative with a loaded model. -/
def prevActive : Derivative :=
  { id := 4, usage := .Web, quality := .Low, assets := ["prev.glb"], model := some 8 }

/-- Fixture: a High derivative as returned by a fulfilled load (model and
bounding box populated). -/
def loadedHigh : Derivative :=
  { id := 5, usage := .Web, quality := .High, assets := ["high2.glb"],
    model := some 9, boundingBox := some bbW }

/-- Fixture: a model ready to load (loading manager set, no bounding box,
one active derivative). -/
def loadTargetModel : Model :=
  { boundingBox := none, derivatives := [prevActive],
    activeDerivative := some prevActive, loadingManager := true }

/-- Fixture: an already registered derivative. -/
def dExist : Derivative :=
  { id := 10, usage := .Web, quality := .Medium, assets := ["exist.glb"] }

/-- Fixture: a model that already holds one derivative. -/
def mInflated : Model := { derivatives := [dExist] }

/-- Fixture: schema data for a model with different units. -/
def dataM : IModelData :=
  { units := "m",
    derivatives := [{ usage := .Web, quality := .Low, assets := ["data.glb"] }] }

/-- Fixture: a derivative not contained in `mInflated`'s list. -/
def dAbsent : Derivative :=
  { id := 11, usage := .Web, quality := .High, assets := ["absent.glb"] }

/-- Fixture: an active derivative that is not in its model's derivative
list. -/
def orphanActive : Derivative :=
  { id := 7, usage := .Web, quality := .High, assets := ["orphan.glb"], model := some 3 }

/-- Fixture: a model whose active derivative is missing from its derivative
list (reachable by calling removeDerivative on the active derivative). -/
def orphanModel : Model := { activeDerivative := some orphanActive }

/-- Fixture: an active derivative that is contained in the list. -/
def listedActive : Derivative :=
  { id := 8, usage := .Web, quality := .High, assets := ["listed.glb"], model := some 4 }

/-- Fixture: a model whose active derivative is in its derivative list. -/
def listedModel : Model :=
  { derivatives := [listedActive], activeDerivative := some listedActive }

/-- Fixture: a non-empty document graph state. -/
def stDoc : DocState :=
  { graphId := 1, rootChildren := [1], liveNodes := [1, 2], nextNodeId := 3,
    assetPath := "scenes/old/document.json" }

/-- Fixture: an empty document graph state. -/
def stEmptyDoc : DocState := { graphId := 1 }

/-- Fixture: a node belonging to a different graph. -/
def foreignParent : NVNodeRef := { id := 5, graphId := 2, isScene := false }

/-- Fixture: concrete document data. -/
def docW : IDocument :=
  { asset := { type := "t", version := "v", generator := "g", copyright := "c" },
    scene := 0, scenes := [{ nodes := [0] }] }

/-- Fixture: a validator that rejects every document. -/
def rejectAll : IDocument → Bool := fun _ => false

/-- `jsIndexOf` finds each supported quality level at its rank. -/
theorem jsIndexOf_qualityLevels (q : EDerivativeQuality) :
    jsIndexOf qualityLevels q = (qualityRank q : Int) := by
  cases q <;> rfl

/-- The ascending scan over strictly higher levels equals the rank-filtered
level list. -/
theorem drop_rank_eq_filter (q : EDerivativeQuality) :
    qualityLevels.drop (((qualityRank q : Int)).toNat + 1) =
      qualityLevels.filter (fun lvl => qualityRank q < qualityRank lvl) := by
  cases q <;> rfl

/-- The descending scan over strictly lower levels equals the reversed
rank-filtered level list. -/
theorem take_rank_eq_filter (q : EDerivativeQuality) :
    (qualityLevels.take ((qualityRank q : Int)).toNat).reverse =
      (qualityLevels.filter (fun lvl => qualityRank lvl < qualityRank q)).reverse := by
  cases q <;> rfl

/-- `Model.selectDerivative` never throws and agrees with the specification
text of the selection order. -/
theorem selectDerivative_eq_spec (m : Model) (q : EDerivativeQuality)
    (u : EDerivativeUsage) :
    m.selectDerivative q u = .ok (specSelectDerivative m q u) := by
  have hneg : ¬ ((qualityRank q : Int) < 0) := by omega
  simp only [Model.selectDerivative, specSelectDerivative, jsIndexOf_qualityLevels,
    if_neg hneg, drop_rank_eq_filter, take_rank_eq_filter]
  cases m.findDerivative q u with
  | some derivative => rfl
  | none =>
    cases (qualityLevels.filter (fun lvl => qualityRank q < qualityRank lvl)).findSome?
        (fun lvl => m.findDerivative lvl u) with
    | some derivative => rfl
    | none =>
      cases ((qualityLevels.filter (fun lvl => qualityRank lvl < qualityRank q)).reverse).findSome?
          (fun lvl => m.findDerivative lvl u) with
      | some derivative => rfl
      | none => rfl

/-- C1. For every Model and every supported quality level, selectDerivative
returns the exact (quality, usage) match if present; otherwise the first
derivative found while scanning strictly higher quality levels in ascending
order; otherwise the first found while scanning strictly lower levels in
descending order; otherwise none — and with derivatives only at Low and
High, requesting Medium returns the High derivative, not the Low one. -/
theorem selectDerivative_follows_spec_order :
    (∀ (m : Model) (q : EDerivativeQuality) (u : EDerivativeUsage),
        m.selectDerivative q u = .ok (specSelectDerivative m q u)) ∧
    lowHighModel.selectDerivative .Medium .Web = .ok (some highDeriv) := by
  refine ⟨selectDerivative_eq_spec, ?_⟩
  rfl

/-- C3. autoLoad builds its load sequence from the Thumb derivative (if any)
followed by the selectDerivative result (if any), issues the loads
sequentially in that order, rejects when the sequence is empty, and with both
a Thumb and a target-quality derivative present issues exactly two loads,
thumb first. -/
theorem autoLoad_builds_sequential_sequence :
    (∀ (m : Model) (q : EDerivativeQuality),
        m.autoLoad q =
          (if ((m.findDerivative .Thumb .Web).toList ++
               (specSelectDerivative m q .Web).toList).isEmpty then
            .error "no suitable web-derivatives available"
          else
            .ok ((m.findDerivative .Thumb .Web).toList ++
                 (specSelectDerivative m q .Web).toList))) ∧
    thumbHighModel.autoLoad .High = .ok [thumbDerivF, highDeriv] ∧
    emptyModel.autoLoad .High = .error "no suitable web-derivatives available" := by
  refine ⟨?_, rfl, rfl⟩
  intro m q
  simp only [Model.autoLoad, selectDerivative_eq_spec]

/-- C4. A successful loadDerivative (loading manager set, load fulfilled with
a model and its bounding box) succeeds; it updates the model bounding box
from the derivative when the model has none; the previously active
derivative (if any) has its model removed and its resources disposed; the
new derivative becomes active; and an update notification is emitted. -/
theorem loadDerivative_success_updates_state (m : Model) (d : Derivative) (bb : Box3)
    (hlm : m.loadingManager = true) (hmodel : d.model.isSome = true)
    (hbb : d.boundingBox = some bb) :
    (m.loadDerivative (.ok d)).err = none ∧
    (m.boundingBox = none → (m.loadDerivative (.ok d)).post.boundingBox = some bb) ∧
    (m.loadDerivative (.ok d)).post.activeDerivative = some d ∧
    MEvent.emittedUpdate ∈ (m.loadDerivative (.ok d)).events ∧
    (∀ a, m.activeDerivative = some a →
      MEvent.removedActiveModel a.id ∈ (m.loadDerivative (.ok d)).events ∧
      MEvent.disposedDerivative a.id ∈ (m.loadDerivative (.ok d)).events) := by
  obtain ⟨mo, hmo⟩ := Option.isSome_iff_exists.mp hmodel
  cases hbf : m.boxFrame <;> cases hact : m.activeDerivative <;> cases hmb : m.boundingBox <;>
    simp_all [Model.loadDerivative, List.mem_append, List.mem_cons]

/-- Witness for C4 at a concrete model and load outcome. -/
theorem loadDerivative_success_updates_state_witness :
    (loadTargetModel.loadDerivative (.ok loadedHigh)).err = none ∧
    (loadTargetModel.boundingBox = none →
      (loadTargetModel.loadDerivative (.ok loadedHigh)).post.boundingBox = some bbW) ∧
    (loadTargetModel.loadDerivative (.ok loadedHigh)).post.activeDerivative = some loadedHigh ∧
    MEvent.emittedUpdate ∈ (loadTargetModel.loadDerivative (.ok loadedHigh)).events ∧
    (∀ a, loadTargetModel.activeDerivative = some a →
      MEvent.removedActiveModel a.id ∈ (loadTargetModel.loadDerivative (.ok loadedHigh)).events ∧
      MEvent.disposedDerivative a.id ∈ (loadTargetModel.loadDerivative (.ok loadedHigh)).events) :=
  loadDerivative_success_updates_state loadTargetModel loadedHigh bbW rfl rfl rfl

/-- C6. fromData on a model that already has derivatives fails with an error
and leaves the existing derivative list untouched. -/
theorem fromData_duplicate_fails_preserves_derivatives (m : Model) (data : IModelData)
    (h : m.derivatives ≠ []) :
    (m.fromData data).2.2 = some "existing derivatives; failed to inflate from modelData" ∧
    (m.fromData data).1.derivatives = m.derivatives := by
  have hlen : 0 < m.derivatives.length := List.length_pos.mpr h
  simp [Model.fromData, hlen]

/-- Witness for C6 at a concrete populated model. -/
theorem fromData_duplicate_fails_preserves_derivatives_witness :
    (mInflated.fromData dataM).2.2 = some "existing derivatives; failed to inflate from modelData" ∧
    (mInflated.fromData dataM).1.derivatives = mInflated.derivatives :=
  fromData_duplicate_fails_preserves_derivatives mInflated dataM (by simp [mInflated])

/-- C10. When fromData fails because derivatives already exist, the units
field has nonetheless already been overwritten with the data's units: the
failed inflate is not atomic with respect to units. -/
theorem fromData_units_overwritten_before_error (m : Model) (data : IModelData)
    (h : m.derivatives ≠ []) :
    (m.fromData data).1.units = data.units ∧
    (m.fromData data).2.2.isSome = true := by
  have hlen : 0 < m.derivatives.length := List.length_pos.mpr h
  simp [Model.fromData, hlen]

/-- Witness for C10: a concrete failed inflate switches units from cm to m. -/
theorem fromData_units_overwritten_before_error_witness :
    (mInflated.fromData dataM).1.units = dataM.units ∧
    (mInflated.fromData dataM).2.2.isSome = true :=
  fromData_units_overwritten_before_error mInflated dataM (by simp [mInflated])

/-- JS indexOf yields -1 for an absent element. -/
theorem jsIndexOf_of_not_mem {α : Type} [DecidableEq α] {l : List α} {a : α}
    (h : a ∉ l) : jsIndexOf l a = -1 := by
  induction l with
  | nil => rfl
  | cons x xs ih =>
    rw [List.mem_cons, not_or] at h
    rw [jsIndexOf, if_neg (fun heq => h.1 heq.symm), ih h.2]
    simp

/-- JS `splice(-1, 1)` on a non-empty array removes the last element. -/
theorem jsSpliceOne_neg_one {α : Type} (l : List α) (h : l ≠ []) :
    jsSpliceOne l (-1) = l.dropLast := by
  have hlen : 0 < l.length := List.length_pos.mpr h
  have hmax : max ((l.length : Int) + -1) 0 = (l.length : Int) - 1 := by
    rw [max_eq_left] <;> omega
  have hact : ((if (-1 : Int) < 0 then max ((l.length : Int) + -1) 0
      else min (-1) (l.length : Int)).toNat) = l.length - 1 := by
    rw [if_pos (by norm_num), hmax]
    omega
  have hsucc : l.length - 1 + 1 = l.length := by omega
  simp only [jsSpliceOne, hact, hsucc, List.drop_length, List.append_nil]
  exact (List.dropLast_eq_take l).symm

/-- C9. For a model with a non-empty derivative list and a derivative that is
not contained in it, removeDerivative still shrinks the list by one element:
the unguarded indexOf yields -1 and splice removes the last element. -/
theorem removeDerivative_absent_removes_last (m : Model) (d : Derivative)
    (hne : m.derivatives ≠ []) (habs : d ∉ m.derivatives) :
    (m.removeDerivative d).derivatives = m.derivatives.dropLast ∧
    (m.removeDerivative d).derivatives.length = m.derivatives.length - 1 := by
  have h1 : jsIndexOf m.derivatives d = -1 := jsIndexOf_of_not_mem habs
  refine ⟨?_, ?_⟩ <;>
    simp [Model.removeDerivative, h1, jsSpliceOne_neg_one _ hne, List.length_dropLast]

/-- Witness for C9: removing an absent derivative from a one-element list
drops that (last) element. -/
theorem removeDerivative_absent_removes_last_witness :
    (mInflated.removeDerivative dAbsent).derivatives = mInflated.derivatives.dropLast ∧
    (mInflated.removeDerivative dAbsent).derivatives.length = mInflated.derivatives.length - 1 :=
  removeDerivative_absent_removes_last mInflated dAbsent (by simp [mInflated])
    (by decide)

/-- C8 counterexample: a model whose active derivative is not contained in
its derivative list (a state reachable by calling removeDerivative on the
active derivative). dispose() iterates only over the derivative list, so the
active derivative's dispose is never invoked and its rendering resources are
not released. -/
theorem dispose_active_counterexample :
    orphanModel.activeDerivative = some orphanActive ∧
    MEvent.disposedDerivative orphanActive.id ∉ (Model.dispose orphanModel).2 := by
  refine ⟨rfl, ?_⟩
  simp [Model.dispose, orphanModel]

/-- C8 amended. For every Model whose active derivative is contained in its
derivative list, dispose() invokes the active derivative's dispose
(releasing its rendering resources) and afterwards the active-derivative
reference is cleared. -/
theorem dispose_releases_active_in_list (m : Model) (a : Derivative)
    (_ha : m.activeDerivative = some a) (hmem : a ∈ m.derivatives) :
    MEvent.disposedDerivative a.id ∈ (Model.dispose m).2 ∧
    (Model.dispose m).1.activeDerivative = none := by
  refine ⟨?_, rfl⟩
  exact List.mem_map.mpr ⟨a, hmem, rfl⟩

/-- Witness for the amended C8 at a concrete model. -/
theorem dispose_releases_active_in_list_witness :
    MEvent.disposedDerivative listedActive.id ∈ (Model.dispose listedModel).2 ∧
    (Model.dispose listedModel).1.activeDerivative = none :=
  dispose_releases_active_in_list listedModel listedActive rfl (by simp [listedModel])

/-- C2. openDocument validates first: when validation fails it throws and
the document graph is completely unchanged — same state (no node disposed,
created or reparented; asset path not set) and no graph effects at all. -/
theorem openDocument_invalid_aborts_unchanged (validate : IDocument → Bool)
    (st : DocState) (d : IDocument) (ap : Option String) (mp : MergeParent)
    (h : validate d = false) :
    CVDocument.openDocument validate st d ap mp =
      (st, [], some "document schema validation failed") := by
  simp [CVDocument.openDocument, h]

/-- Witness for C2: a rejecting validator aborts a concrete open with the
state intact. -/
theorem openDocument_invalid_aborts_unchanged_witness :
    CVDocument.openDocument rejectAll stDoc docW (some "scenes/new/document.json") .undef =
      (stDoc, [], some "document schema validation failed") :=
  openDocument_invalid_aborts_unchanged rejectAll stDoc docW
    (some "scenes/new/document.json") .undef rfl

/-- C5. appendModel fails when the given parent belongs to a different graph,
leaving the state unmutated (no node created, no child attached, no
derivative registered, no effects); and it fails when the graph is empty and
no explicit parent is given. -/
theorem appendModel_precondition_failures (st : DocState) (p : NVNodeRef)
    (path : String) (q : Option EDerivativeQuality) :
    (p.graphId ≠ st.graphId →
      CVDocument.appendModel st path q (some p) =
        (st, [], some "invalid parent node")) ∧
    (st.isEmpty = true →
      CVDocument.appendModel st path q none =
        (st, [], some "empty document, cannot append model")) := by
  constructor
  · intro h
    simp [CVDocument.appendModel, h]
  · intro h
    simp [CVDocument.appendModel, h]

/-- Witness for C5: a foreign-graph parent and an empty graph each abort a
concrete append with the state intact. -/
theorem appendModel_precondition_failures_witness :
    CVDocument.appendModel stDoc "models/m.glb" none (some foreignParent) =
      (stDoc, [], some "invalid parent node") ∧
    CVDocument.appendModel stEmptyDoc "models/m.glb" none none =
      (stEmptyDoc, [], some "empty document, cannot append model") :=
  ⟨(appendModel_precondition_failures stDoc foreignParent "models/m.glb" none).1
      (by decide),
   (appendModel_precondition_failures stEmptyDoc foreignParent "models/m.glb" none).2
      (by decide)⟩

/-- C7. deflateDocument fails when the graph is empty; otherwise it returns a
fresh document whose asset metadata block holds exactly the fixed values:
the si-dpo-3d mime type, version 1.0, generator Voyager and the fixed
copyright string. -/
theorem deflateDocument_fixed_metadata (st : DocState) :
    (st.isEmpty = true →
      CVDocument.deflateDocument st = .error "empty document, cannot serialize") ∧
    (st.isEmpty = false →
      ∃ doc, CVDocument.deflateDocument st = .ok doc ∧
        doc.asset.type = "application/si-dpo-3d.document+json" ∧
        doc.asset.version = "1.0" ∧
        doc.asset.generator = "Voyager" ∧
        doc.asset.copyright = "(c) Smithsonian Institution. All rights reserved.") := by
  constructor
  · intro h
    simp [CVDocument.deflateDocument, h]
  · intro h
    refine ⟨{ asset := { type := "application/si-dpo-3d.document+json",
                         version := "1.0",
                         generator := "Voyager",
                         copyright := "(c) Smithsonian Institution. All rights reserved." },
              scene := 0,
              scenes := [{ nodes := st.rootChildren }] }, ?_, rfl, rfl, rfl, rfl⟩
    simp [CVDocument.deflateDocument, h, sceneToDocument, CVDocument.mimeType,
      CVDocument.docVersion]

/-- Witness for C7: serialization fails on a concrete empty state and yields
the fixed metadata on a concrete non-empty state. -/
theorem deflateDocument_fixed_metadata_witness :
    CVDocument.deflateDocument stEmptyDoc = .error "empty document, cannot serialize" ∧
    ∃ doc, CVDocument.deflateDocument stDoc = .ok doc ∧
      doc.asset.type = "application/si-dpo-3d.document+json" ∧
      doc.asset.version = "1.0" ∧
      doc.asset.generator = "Voyager" ∧
      doc.asset.copyright = "(c) Smithsonian Institution. All rights reserved." :=
  ⟨(deflateDocument_fixed_metadata stEmptyDoc).1 (by decide),
   (deflateDocument_fixed_metadata stDoc).2 (by decide)⟩
